import Mathlib

/-!
Shallow embedding of `src/ares.py` (classes `AresApiClient` and
`AresApiClientManager`).

Python strings are modelled as `List Char`; ints as `Int`.  The relevant
pieces of the Python runtime (`str()` coercion, `str.isdigit`, `str.lower`,
`string.whitespace`, dict truthiness, dict item access raising `KeyError`)
are modelled explicitly below, each with a comment giving its Python
semantics.  The HTTP transport (`requests.get`) is an external collaborator:
it is passed in as a function from the requested URL to a response, and
every issued request is recorded in an explicit trace so that "no network
call happens" is a provable statement.
-/

namespace Ares

/-- A Python value that can be passed as the `ico` argument: the code and its
docstrings accept a string or an int. -/
inductive PyVal
  | str (s : List Char)
  | int (n : Int)
deriving DecidableEq

/-- Python `==` restricted to `PyVal`: strings compare by content, ints by
value, and a string never equals an int (in Python, `"0" == 0` is `False`). -/
def pyEq : PyVal → PyVal → Bool
  | PyVal.str a, PyVal.str b => a = b
  | PyVal.int a, PyVal.int b => a = b
  | _, _ => false

/-- Python `str()` of a `PyVal`: a string maps to itself, an int to its
decimal representation (with a leading `-` for negatives), exactly as
`toString : Int → String` renders it. -/
def pyStrOf : PyVal → List Char
  | PyVal.str s => s
  | PyVal.int n => (toString n).data

/-- Model of Python's per-character digit test underlying `str.isdigit`:
a character counts as a digit when its Unicode `Numeric_Type` is `Digit` or
`Decimal`.  This enumerates the ASCII digits `0`–`9` together with
representative non-ASCII digit characters (superscripts and subscripts,
Arabic-Indic, extended Arabic-Indic, Devanagari, Bengali and fullwidth
digits).  The full Unicode table has further ranges; every proof below
depends only on the ASCII range and on U+00B2 (`²`), where this model agrees
exactly with Python. -/
def pyCharIsDigit (c : Char) : Bool :=
  (0x30 ≤ c.toNat ∧ c.toNat ≤ 0x39) ∨
  c.toNat = 0xB2 ∨ c.toNat = 0xB3 ∨ c.toNat = 0xB9 ∨
  (0x660 ≤ c.toNat ∧ c.toNat ≤ 0x669) ∨
  (0x6F0 ≤ c.toNat ∧ c.toNat ≤ 0x6F9) ∨
  (0x966 ≤ c.toNat ∧ c.toNat ≤ 0x96F) ∨
  (0x9E6 ≤ c.toNat ∧ c.toNat ≤ 0x9EF) ∨
  c.toNat = 0x2070 ∨ (0x2074 ≤ c.toNat ∧ c.toNat ≤ 0x2079) ∨
  (0x2080 ≤ c.toNat ∧ c.toNat ≤ 0x2089) ∨
  (0xFF10 ≤ c.toNat ∧ c.toNat ≤ 0xFF19)

/-- Python `str.isdigit`: `True` iff the string is non-empty and every
character is a digit character (note: `"".isdigit()` is `False`). -/
def pyIsDigit (s : List Char) : Bool :=
  !s.isEmpty && s.all pyCharIsDigit

/-- Membership in Python's `string.whitespace`, which is exactly the six
ASCII characters space, tab, linefeed, vertical tab, formfeed, carriage
return. -/
def pyWhitespaceChar (c : Char) : Bool :=
  c = ' ' ∨ c = '\t' ∨ c = '\n' ∨ c = Char.ofNat 0x0B ∨
  c = Char.ofNat 0x0C ∨ c = '\r'

/-- Python `str.lower` on one character, modelled on the ASCII case mapping
(`A`–`Z` map to `a`–`z`).  Unicode case mappings beyond ASCII are not
modelled; all quit sentinels in the source are ASCII, and a character left
unchanged here that Python would change is never a sentinel character. -/
def pyLowerChar (c : Char) : Char :=
  if 0x41 ≤ c.toNat ∧ c.toNat ≤ 0x5A then Char.ofNat (c.toNat + 32) else c

/-- Python `str.lower` (characterwise, see `pyLowerChar`). -/
def pyLower (s : List Char) : List Char :=
  s.map pyLowerChar

end Ares

namespace AresApiClient

open Ares

/-- `ICO_LENGTH = 8` — "ICO in the Czech Republic is always eight-digit
long". -/
def ICO_LENGTH : Nat := 8

/-- `ARES_REQUEST_URL` — the fixed ARES API endpoint base URL. -/
def ARES_REQUEST_URL : List Char :=
  "https://ares.gov.cz/ekonomicke-subjekty-v-be/rest/ekonomicke-subjekty/".data

/-- `_force_string`: `str(ico)`.  On a string or an int, Python's `str()`
always succeeds (the `except TypeError` branch is unreachable for these
types), so the result is always `some`. -/
def _force_string (ico : PyVal) : Option (List Char) :=
  some (pyStrOf ico)

/-- `_check_if_is_digit`: returns the string intact when `ico.isdigit()`
holds, otherwise falls through and returns `None`. -/
def _check_if_is_digit (ico : List Char) : Option (List Char) :=
  if pyIsDigit ico then some ico else none

/-- `_check_exceeding_allowed_length`: returns the string intact when
`len(ico) <= ICO_LENGTH`, otherwise falls through and returns `None`. -/
def _check_exceeding_allowed_length (ico : List Char) : Option (List Char) :=
  if ico.length ≤ ICO_LENGTH then some ico else none

/-- `_force_full_length`: computes `length_insufficient = ICO_LENGTH -
len(ico)` (a Python int, possibly negative), and when it is non-zero
(truthy) prepends `length_insufficient * "0"` — which in Python is the empty
string when the multiplier is negative, matching `Int.toNat`. -/
def _force_full_length (ico : List Char) : List Char :=
  let length_insufficient : Int := (ICO_LENGTH : Int) - ico.length
  if length_insufficient ≠ 0 then
    List.replicate length_insufficient.toNat '0' ++ ico
  else ico

/-- The loop body of `validate_ico`: after each test, `if not ico: return`
applies Python falsiness to the test's result — `None` fails, and so does
the empty string.  The `Nat` tag records the index of the test after which
the pipeline gave up (0 = `_force_string`, 1 = `_check_if_is_digit`,
2 = `_check_exceeding_allowed_length`, 3 = `_force_full_length`). -/
def falsyGuard (i : Nat) (r : Option (List Char)) : Except Nat (List Char) :=
  match r with
  | none => Except.error i
  | some s => if s.isEmpty then Except.error i else Except.ok s

/-- `validate_ico`, instrumented with the index of the failing test: the
source runs `_force_string`, `_check_if_is_digit`,
`_check_exceeding_allowed_length`, `_force_full_length` in this order,
checking `if not ico: return` after each. -/
def validate_ico_attr (ico : PyVal) : Except Nat (List Char) :=
  match falsyGuard 0 (_force_string ico) with
  | Except.error i => Except.error i
  | Except.ok s1 =>
    match falsyGuard 1 (_check_if_is_digit s1) with
    | Except.error i => Except.error i
    | Except.ok s2 =>
      match falsyGuard 2 (_check_exceeding_allowed_length s2) with
      | Except.error i => Except.error i
      | Except.ok s3 => falsyGuard 3 (some (_force_full_length s3))

/-- `validate_ico`: returns the (possibly zero-padded) ico string, or `None`
when any test failed.  The source collapses every failure to `None`; the
instrumented `validate_ico_attr` additionally remembers which test failed. -/
def validate_ico (ico : PyVal) : Option (List Char) :=
  (validate_ico_attr ico).toOption

end AresApiClient

namespace Ares

/-- A decoded JSON value, as produced by `response.json()`: Python maps JSON
objects to dicts, arrays to lists, strings to `str`, numbers to ints (the
fields used here are never fractional), booleans to `bool` and `null` to
`None`. -/
inductive Json
  | str (s : List Char)
  | num (n : Int)
  | bool (b : Bool)
  | null
  | arr (elems : List Json)
  | obj (items : List (List Char × Json))

/-- A Python exception that the modelled code can raise: `KeyError` from a
dict access with a missing key, `TypeError` from subscripting a non-dict,
and `json.JSONDecodeError` from `response.json()` on an undecodable body. -/
inductive PyError
  | keyError (key : List Char)
  | typeError
  | jsonDecodeError
deriving DecidableEq

/-- The single-quote character, used by Python `repr` of strings. -/
def squote : Char := Char.ofNat 0x27

mutual

/-- Python `repr` of a decoded JSON value (`str()` of a dict or list falls
back to `repr`).  String escaping inside `repr` is not modelled (no claim
evaluates `repr` of a string containing quotes). -/
def reprJson : Json → List Char
  | Json.str s => squote :: s ++ [squote]
  | Json.num n => (toString n).data
  | Json.bool true => "True".data
  | Json.bool false => "False".data
  | Json.null => "None".data
  | Json.arr elems => '[' :: reprJsonList elems ++ [']']
  | Json.obj items => Char.ofNat 0x7B :: reprJsonObj items ++ [Char.ofNat 0x7D]

/-- Comma-separated `repr`s of the elements of a Python list. -/
def reprJsonList : List Json → List Char
  | [] => []
  | [x] => reprJson x
  | x :: xs => reprJson x ++ ", ".data ++ reprJsonList xs

/-- Comma-separated `'key': repr(value)` items of a Python dict. -/
def reprJsonObj : List (List Char × Json) → List Char
  | [] => []
  | [(k, v)] => squote :: k ++ (squote :: ": ".data) ++ reprJson v
  | (k, v) :: kvs =>
    squote :: k ++ (squote :: ": ".data) ++ reprJson v ++ ", ".data ++
      reprJsonObj kvs

end

/-- Python `str()` applied to a decoded JSON value, as f-string interpolation
does: a `str` renders as its own content, everything else as its `repr`
(for ints, bools and `None` the two coincide). -/
def pyStrOfJson : Json → List Char
  | Json.str s => s
  | j => reprJson j

/-- Python truthiness of a decoded JSON value (`if data:`): empty dicts,
empty lists, empty strings, zero and `None` and `False` are falsy. -/
def pyTruthyJson : Json → Bool
  | Json.str s => !s.isEmpty
  | Json.num n => n ≠ 0
  | Json.bool b => b
  | Json.null => false
  | Json.arr elems => !elems.isEmpty
  | Json.obj items => !items.isEmpty

/-- Python dict subscription `data[key]`: on a dict, returns the value or
raises `KeyError`; on any non-dict value, raises `TypeError`. -/
def pyGetItem (data : Json) (key : List Char) : Except PyError Json :=
  match data with
  | Json.obj items =>
    match items.lookup key with
    | some v => Except.ok v
    | none => Except.error (PyError.keyError key)
  | _ => Except.error PyError.typeError

/-- The observable part of a `requests.get` response: the HTTP status code,
and the outcome of `.json()` — either the decoded body or the
`JSONDecodeError` it raises. -/
structure Response where
  status_code : Int
  body : Except PyError Json

end Ares

namespace AresApiClient

open Ares

/-- `get_subject_by_ico`, with the HTTP transport passed in as the function
`fetch` from the requested URL to its response, and with the list of URLs
actually requested returned alongside the result (so that "no network call
is issued" is provable).  Mirrors the source: a falsy [`validate_ico`]
result returns `None` with no request; otherwise one GET of
`ARES_REQUEST_URL + ico` is issued; a status other than 200 returns `None`;
otherwise `response.json()` is returned (its decode error, if any,
propagates). -/
def get_subject_by_ico (fetch : List Char → Response) (ico : PyVal) :
    Except PyError (Option Json) × List (List Char) :=
  match validate_ico ico with
  | none => (Except.ok none, [])
  | some v =>
    if v.isEmpty then (Except.ok none, [])
    else
      let url := ARES_REQUEST_URL ++ v
      let response := fetch url
      if response.status_code ≠ 200 then (Except.ok none, [url])
      else
        match response.body with
        | Except.error e => (Except.error e, [url])
        | Except.ok data => (Except.ok (some data), [url])

/-- The f-string
`f'\x7bdata["obchodniJmeno"]\x7d, IČO \x7bdata["ico"]\x7d, sídlem \x7bdata["sidlo"]["textovaAdresa"]\x7d'`:
the four subscriptions are evaluated left to right, each able to raise, and
the interpolated values are rendered with `str()`. -/
def formal_description_fstring (data : Json) : Except PyError (List Char) :=
  match pyGetItem data "obchodniJmeno".data with
  | Except.error e => Except.error e
  | Except.ok j1 =>
    match pyGetItem data "ico".data with
    | Except.error e => Except.error e
    | Except.ok j2 =>
      match pyGetItem data "sidlo".data with
      | Except.error e => Except.error e
      | Except.ok sidlo =>
        match pyGetItem sidlo "textovaAdresa".data with
        | Except.error e => Except.error e
        | Except.ok j3 =>
          Except.ok (pyStrOfJson j1 ++ ", IČO ".data ++ pyStrOfJson j2 ++
            ", sídlem ".data ++ pyStrOfJson j3)

/-- `get_subject_formal_description`: retrieves the data via
[`get_subject_by_ico`] (same transport parameter and request trace); when
the retrieved data is truthy (a non-empty dict, in particular), builds the
f-string — whose exceptions propagate, there is no handler — and otherwise
falls through, returning `None`. -/
def get_subject_formal_description (fetch : List Char → Response)
    (ico : PyVal) : Except PyError (Option (List Char)) × List (List Char) :=
  match get_subject_by_ico fetch ico with
  | (Except.error e, trace) => (Except.error e, trace)
  | (Except.ok none, trace) => (Except.ok none, trace)
  | (Except.ok (some data), trace) =>
    if pyTruthyJson data then
      match formal_description_fstring data with
      | Except.error e => (Except.error e, trace)
      | Except.ok s => (Except.ok (some s), trace)
    else (Except.ok none, trace)

end AresApiClient

namespace AresApiClientManager

open Ares

/-- The `quit_by` set from `interact`: eight strings and the int `0`.  Order
is irrelevant for membership; note the int `0` is a distinct Python value
from the string `"0"`. -/
def quit_by : List PyVal :=
  [PyVal.str "".data, PyVal.str "q".data, PyVal.int 0, PyVal.str "quit".data,
   PyVal.str "quit()".data, PyVal.str "exit".data, PyVal.str "exit()".data,
   PyVal.str "abort".data, PyVal.str "abort()".data]

/-- What one iteration of the `interact` loop decides to do with a raw line
of user input: `quit` models the `break` taken before any lookup, and
`lookup arg_ico` models the call
`AresApiClient.get_subject_formal_description(arg_ico)` that follows
otherwise. -/
inductive InteractAction
  | quit
  | lookup (arg_ico : List Char)
deriving DecidableEq

/-- One iteration of the `interact` loop on the string returned by
`input()`: all `string.whitespace` characters are removed, then
`user_input.lower() in quit_by` (Python `in` uses `==`, under which a string
never equals the int `0`) decides between breaking out of the loop and
looking the cleaned — not lowercased — input up. -/
def interactStep (user_input : List Char) : InteractAction :=
  let cleaned := user_input.filter (fun c => !pyWhitespaceChar c)
  if quit_by.any (fun q => pyEq (PyVal.str (pyLower cleaned)) q) then
    InteractAction.quit
  else
    InteractAction.lookup cleaned

end AresApiClientManager

namespace Ares

/-- Fixture: the sample successful ARES response body with display name
`Acme s.r.o.`, registry-echoed ico `00012345` and address `Praha 1`. -/
def acmeBody : Json :=
  Json.obj
    [("obchodniJmeno".data, Json.str "Acme s.r.o.".data),
     ("ico".data, Json.str "00012345".data),
     ("sidlo".data,
      Json.obj [("textovaAdresa".data, Json.str "Praha 1".data)])]

/-- Fixture: a transport answering every URL with HTTP 200 and `acmeBody`. -/
def acmeFetch : List Char → Response :=
  fun _ => ⟨200, Except.ok acmeBody⟩

/-- Fixture: a transport answering every URL with HTTP 200 and a non-empty
record that lacks the `obchodniJmeno` field. -/
def icoOnlyFetch : List Char → Response :=
  fun _ => ⟨200, Except.ok (Json.obj [("ico".data, Json.str "00012345".data)])⟩

/-- Fixture: a transport answering every URL with HTTP 404. -/
def fetch404 : List Char → Response :=
  fun _ => ⟨404, Except.ok Json.null⟩

/-- Fixture family: a transport answering every URL with HTTP 200 and the
given decoded body. -/
def fetch200 (data : Json) : List Char → Response :=
  fun _ => ⟨200, Except.ok data⟩

end Ares

namespace Ares

open AresApiClient

/-- Characterization of the instrumented pipeline: coercion always succeeds;
the empty string dies at the first falsy guard (tag 0); a string failing
`isdigit` dies at the digit test (tag 1); a string longer than 8 dies at the
length test (tag 2); otherwise the string is left-padded with zeros to
length 8 and returned. -/
theorem validate_ico_attr_eq (v : PyVal) :
    validate_ico_attr v =
      (if pyStrOf v = [] then Except.error 0
       else if ¬ pyIsDigit (pyStrOf v) then Except.error 1
       else if 8 < (pyStrOf v).length then Except.error 2
       else Except.ok
         (List.replicate (8 - (pyStrOf v).length) '0' ++ pyStrOf v)) := by
  unfold validate_ico_attr _force_string falsyGuard
  by_cases h0 : pyStrOf v = []
  · simp [h0, List.isEmpty_iff]
  · simp only [List.isEmpty_iff, h0, if_neg, if_false]
    unfold _check_if_is_digit
    by_cases h1 : pyIsDigit (pyStrOf v)
    · simp only [h1, if_true, List.isEmpty_iff, h0, if_false, if_neg]
      unfold _check_exceeding_allowed_length
      by_cases h2 : (pyStrOf v).length ≤ ICO_LENGTH
      · have h2' : ¬ 8 < (pyStrOf v).length := by
          simpa [ICO_LENGTH] using h2
        simp only [h2, if_true, List.isEmpty_iff, h0, if_false, if_neg, h2',
          h1, not_true]
        unfold _force_full_length
        have hpad : (((ICO_LENGTH : Int) - (pyStrOf v).length).toNat)
            = 8 - (pyStrOf v).length := by
          simp only [ICO_LENGTH]
          omega
        by_cases h3 : ((ICO_LENGTH : Int) - (pyStrOf v).length) = 0
        · have hlen : (pyStrOf v).length = 8 := by
            simp only [ICO_LENGTH] at h3; omega
          simp [ICO_LENGTH, h3, hlen, h0, List.isEmpty_iff]
        · have hne : List.replicate
              (((ICO_LENGTH : Int) - (pyStrOf v).length).toNat) '0'
              ++ pyStrOf v ≠ [] := by
            simp [h0]
          simp [h3, hpad, List.isEmpty_iff, hne, h0]
      · have h2' : 8 < (pyStrOf v).length := by
          simp only [ICO_LENGTH] at h2; omega
        simp [h2, h2', h1, List.isEmpty_iff]
    · simp [h1, List.isEmpty_iff]

/-- The plain `validate_ico` in terms of the same characterization. -/
theorem validate_ico_eq (v : PyVal) :
    validate_ico v =
      (if pyStrOf v ≠ [] ∧ pyIsDigit (pyStrOf v) ∧ (pyStrOf v).length ≤ 8
       then some (List.replicate (8 - (pyStrOf v).length) '0' ++ pyStrOf v)
       else none) := by
  unfold validate_ico
  rw [validate_ico_attr_eq]
  by_cases h0 : pyStrOf v = []
  · simp [h0, Except.toOption]
  · by_cases h1 : pyIsDigit (pyStrOf v)
    · by_cases h2 : 8 < (pyStrOf v).length
      · simp [h0, h1, h2, Except.toOption, Nat.not_le.mpr h2]
      · simp [h0, h1, h2, Except.toOption, Nat.not_lt.mp h2]
    · simp [h0, h1, Except.toOption]

/-- A successful validation always yields a canonical identifier: 8
characters, all passing the code's own per-character digit test, hence
passing `isdigit`. -/
theorem validate_some_canonical {v : PyVal} {r : List Char}
    (h : validate_ico v = some r) :
    r.length = 8 ∧ pyIsDigit r = true := by
  rw [validate_ico_eq] at h
  by_cases hc : pyStrOf v ≠ [] ∧ pyIsDigit (pyStrOf v) ∧
      (pyStrOf v).length ≤ 8
  · rw [if_pos hc] at h
    obtain ⟨hne, hdig, hlen⟩ := hc
    have hr : r = List.replicate (8 - (pyStrOf v).length) '0'
        ++ pyStrOf v := (Option.some.inj h).symm
    subst hr
    constructor
    · simp; omega
    · unfold pyIsDigit at hdig ⊢
      simp only [Bool.and_eq_true, List.all_eq_true] at hdig ⊢
      constructor
      · simp [List.isEmpty_iff, hne]
      · intro c hc
        rcases List.mem_append.mp hc with hrep | hmem
        · have : c = '0' := List.eq_of_mem_replicate hrep
          subst this
          decide
        · exact hdig.2 c hmem
  · rw [if_neg hc] at h
    simp at h

/-- When validation succeeds and the (single) request is answered with
HTTP 200 and a decoded body `data`, `get_subject_formal_description`
reduces to the `if data:` dispatch of the source: a falsy body yields
`None`, a truthy body runs the description f-string, whose outcome —
the built string, or the exception it raises — is passed through
unhandled. -/
theorem description_found_eq (fetch : List Char → Response) (v : PyVal)
    (s : List Char) (hval : AresApiClient.validate_ico v = some s)
    (data : Json)
    (hf : fetch (AresApiClient.ARES_REQUEST_URL ++ s)
        = ⟨200, Except.ok data⟩) :
    (AresApiClient.get_subject_formal_description fetch v).1
      = (if pyTruthyJson data then
          match AresApiClient.formal_description_fstring data with
          | Except.error e => Except.error e
          | Except.ok d => Except.ok (some d)
        else Except.ok none) := by
  have h8 := (validate_some_canonical hval).1
  have hs : s.isEmpty = false := by
    cases s with
    | nil => simp at h8
    | cons a t => rfl
  have hby : AresApiClient.get_subject_by_ico fetch v
      = (Except.ok (some data), [AresApiClient.ARES_REQUEST_URL ++ s]) := by
    unfold AresApiClient.get_subject_by_ico
    rw [hval]
    simp [hs, hf]
  unfold AresApiClient.get_subject_formal_description
  rw [hby]
  by_cases ht : pyTruthyJson data
  · simp only [ht, if_true]
    cases hb : AresApiClient.formal_description_fstring data with
    | error e => simp [hb]
    | ok d => simp [hb]
  · simp [ht]

end Ares

/-- C1: for every ASCII-digit string `s` with `1 ≤ len s ≤ 8`,
`validate_ico` returns the 8-character string of `8 - len s` zero characters
followed by `s`; in particular every 8-digit string is returned unchanged. -/
theorem ares_c1_digit_strings_zero_padded (s : List Char)
    (hlen1 : 1 ≤ s.length) (hlen8 : s.length ≤ 8)
    (hdig : ∀ c ∈ s, 0x30 ≤ c.toNat ∧ c.toNat ≤ 0x39) :
    AresApiClient.validate_ico (Ares.PyVal.str s)
        = some (List.replicate (8 - s.length) '0' ++ s) ∧
      (s.length = 8 →
        AresApiClient.validate_ico (Ares.PyVal.str s) = some s) := by
  have hne : s ≠ [] := by
    intro h; subst h; simp at hlen1
  have hd : Ares.pyIsDigit s = true := by
    unfold Ares.pyIsDigit
    simp only [Bool.and_eq_true, List.all_eq_true]
    refine ⟨by simp [List.isEmpty_iff, hne], ?_⟩
    intro c hc
    unfold Ares.pyCharIsDigit
    simp only [decide_eq_true_eq]
    exact Or.inl (hdig c hc)
  have hmain : AresApiClient.validate_ico (Ares.PyVal.str s)
      = some (List.replicate (8 - s.length) '0' ++ s) := by
    rw [Ares.validate_ico_eq]
    simp [Ares.pyStrOf, hne, hd, hlen8]
  refine ⟨hmain, fun h8 => ?_⟩
  rw [hmain, h8]
  simp

/-- Witness for C1 at the 5-digit input `"12345"`. -/
theorem ares_c1_digit_strings_zero_padded_witness :
    AresApiClient.validate_ico (Ares.PyVal.str "12345".data)
        = some (List.replicate (8 - "12345".data.length) '0' ++ "12345".data) ∧
      ("12345".data.length = 8 →
        AresApiClient.validate_ico (Ares.PyVal.str "12345".data)
          = some "12345".data) :=
  ares_c1_digit_strings_zero_padded "12345".data (by decide) (by decide)
    (by decide)

/-- C2 (counterexample): the superscript-two character U+00B2 lies outside
ASCII `0`–`9`, yet Python's `isdigit` accepts it, so `validate_ico` returns
a canonical identifier `"0000000²"` instead of failing. -/
theorem ares_c2_counterexample_superscript_two :
    AresApiClient.validate_ico (Ares.PyVal.str "²".data)
        = some "0000000²".data ∧
      ¬ ∀ c ∈ "²".data, 0x30 ≤ c.toNat ∧ c.toNat ≤ 0x39 := by
  exact ⟨rfl, by decide⟩

/-- C2 (amended): a string containing a character that `str.isdigit` does
not classify as a digit fails at the digit-only test (test index 1, the
`NonDigitError` of the spec), and `validate_ico` returns `None`; by the
model of `pyCharIsDigit` this covers every ASCII character outside `0`–`9`,
but not non-ASCII Unicode digit characters such as `²`. -/
theorem ares_c2_nondigit_char_rejected (s : List Char) (c : Char)
    (hc : c ∈ s) (hnd : Ares.pyCharIsDigit c = false) :
    AresApiClient.validate_ico_attr (Ares.PyVal.str s) = Except.error 1 ∧
      AresApiClient.validate_ico (Ares.PyVal.str s) = none := by
  have hne : s ≠ [] := by rintro rfl; simp at hc
  have hall : s.all Ares.pyCharIsDigit = false := by
    rw [List.all_eq_false]
    exact ⟨c, hc, by simp [hnd]⟩
  have hd : Ares.pyIsDigit s = false := by
    unfold Ares.pyIsDigit
    rw [hall]
    simp
  constructor
  · rw [Ares.validate_ico_attr_eq]
    simp [Ares.pyStrOf, hne, hd]
  · unfold AresApiClient.validate_ico
    rw [Ares.validate_ico_attr_eq]
    simp [Ares.pyStrOf, hne, hd, Except.toOption]

/-- Witness for C2 (amended) at the input `"abc"` with witness character
`'b'`. -/
theorem ares_c2_nondigit_char_rejected_witness :
    AresApiClient.validate_ico_attr (Ares.PyVal.str "abc".data)
        = Except.error 1 ∧
      AresApiClient.validate_ico (Ares.PyVal.str "abc".data) = none :=
  ares_c2_nondigit_char_rejected "abc".data 'b' (by decide) (by decide)

/-- C3 (counterexample): the nine-letter string `"abcdefghi"` is longer than
8 characters, yet the pipeline rejects it at the digit-only test (index 1,
the spec's `NonDigitError`), not at the length test (index 2, the spec's
`TooLongError`): the digit test runs first. -/
theorem ares_c3_counterexample_nine_letters :
    8 < "abcdefghi".data.length ∧
      AresApiClient.validate_ico_attr (Ares.PyVal.str "abcdefghi".data)
        = Except.error 1 :=
  ⟨by decide, rfl⟩

/-- C3 (amended): every string longer than 8 characters is rejected
(`validate_ico` returns `None`, never a truncation), and when the string is
all digit characters the rejection happens specifically at the length test
(test index 2, the spec's `TooLongError`). -/
theorem ares_c3_too_long_rejected (s : List Char) (h : 8 < s.length) :
    AresApiClient.validate_ico (Ares.PyVal.str s) = none ∧
      (Ares.pyIsDigit s = true →
        AresApiClient.validate_ico_attr (Ares.PyVal.str s)
          = Except.error 2) := by
  constructor
  · rw [Ares.validate_ico_eq]
    have hcond : ¬ (Ares.pyStrOf (Ares.PyVal.str s) ≠ [] ∧
        (Ares.pyIsDigit (Ares.pyStrOf (Ares.PyVal.str s)) = true ∧
          (Ares.pyStrOf (Ares.PyVal.str s)).length ≤ 8)) := by
      rintro ⟨-, -, hle⟩
      simp only [Ares.pyStrOf] at hle
      omega
    rw [if_neg hcond]
  · intro hd
    have hne : s ≠ [] := by rintro rfl; simp at h
    rw [Ares.validate_ico_attr_eq]
    simp [Ares.pyStrOf, hne, hd, h]

/-- Witness for C3 (amended) at the 9-digit input `"123456789"`. -/
theorem ares_c3_too_long_rejected_witness :
    AresApiClient.validate_ico (Ares.PyVal.str "123456789".data) = none ∧
      (Ares.pyIsDigit "123456789".data = true →
        AresApiClient.validate_ico_attr (Ares.PyVal.str "123456789".data)
          = Except.error 2) :=
  ares_c3_too_long_rejected "123456789".data (by decide)

/-- C4 (counterexample): the empty string does not pass validation and is
not zero-padded to `"00000000"`: `validate_ico("")` returns `None`. -/
theorem ares_c4_counterexample_empty_string :
    AresApiClient.validate_ico (Ares.PyVal.str "".data) = none := rfl

/-- C4 (amended): the empty string is rejected, not canonicalized: after
string coercion the empty string is falsy, so the `if not ico` guard stops
the pipeline right after test 0; independently, the digit-only test would
also reject it, since Python's `"".isdigit()` is `False` rather than
vacuously true. -/
theorem ares_c4_empty_string_rejected :
    AresApiClient.validate_ico_attr (Ares.PyVal.str "".data)
        = Except.error 0 ∧
      AresApiClient._check_if_is_digit "".data = none ∧
      Ares.pyIsDigit "".data = false :=
  ⟨rfl, rfl, rfl⟩

/-- C10: whenever `validate_ico` returns a value, that value has exactly 8
characters, every character passes the code's own per-character digit test,
and the whole string passes the `isdigit` check. -/
theorem ares_c10_validate_result_canonical (v : Ares.PyVal) (r : List Char)
    (h : AresApiClient.validate_ico v = some r) :
    r.length = 8 ∧ Ares.pyIsDigit r = true ∧
      ∀ c ∈ r, Ares.pyCharIsDigit c = true := by
  obtain ⟨h8, hd⟩ := Ares.validate_some_canonical h
  refine ⟨h8, hd, ?_⟩
  unfold Ares.pyIsDigit at hd
  simp only [Bool.and_eq_true, List.all_eq_true] at hd
  exact hd.2

/-- Witness for C10 at the integer input `123`. -/
theorem ares_c10_validate_result_canonical_witness :
    "00000123".data.length = 8 ∧ Ares.pyIsDigit "00000123".data = true ∧
      ∀ c ∈ "00000123".data, Ares.pyCharIsDigit c = true :=
  ares_c10_validate_result_canonical (Ares.PyVal.int 123) "00000123".data
    (by decide)

/-- C5: with a transport answering HTTP 200 and the body
`obchodniJmeno = "Acme s.r.o."`, `ico = "00012345"`,
`sidlo.textovaAdresa = "Praha 1"`, the formal description is exactly
`"Acme s.r.o., IČO 00012345, sídlem Praha 1"`. -/
theorem ares_c5_formal_description_exact :
    (AresApiClient.get_subject_formal_description Ares.acmeFetch
        (Ares.PyVal.str "00012345".data)).1
      = Except.ok (some "Acme s.r.o., IČO 00012345, sídlem Praha 1".data) :=
  rfl

/-- C6 (counterexample): with a 200 response whose non-empty record lacks
`obchodniJmeno`, `get_subject_formal_description` raises a `KeyError`
upward instead of returning `None`: there is no handler around the
f-string. -/
theorem ares_c6_counterexample_missing_field_raises :
    (AresApiClient.get_subject_formal_description Ares.icoOnlyFetch
        (Ares.PyVal.str "00012345".data)).1
      = Except.error (Ares.PyError.keyError "obchodniJmeno".data) :=
  rfl

/-- C6 (amended): when the 200-decoded record is a non-empty dict missing
any expected field, the description-building f-string raises the `KeyError`
of the first field missing in evaluation order — `obchodniJmeno`, then
`ico`, then `sidlo`, then `textovaAdresa` inside the address dict — and the
exception propagates out of `get_subject_formal_description` unhandled; a
falsy record (e.g. the empty dict) is surfaced as absence (`None`), and
only a falsy record is: a truthy record never yields the absent result. -/
theorem ares_c6_missing_field_keyerror
    (items : List (List Char × Ares.Json)) (v : Ares.PyVal) (s : List Char)
    (hval : AresApiClient.validate_ico v = some s) :
    (items ≠ [] → items.lookup "obchodniJmeno".data = none →
      (AresApiClient.get_subject_formal_description
          (Ares.fetch200 (Ares.Json.obj items)) v).1
        = Except.error (Ares.PyError.keyError "obchodniJmeno".data)) ∧
    (∀ j1, items.lookup "obchodniJmeno".data = some j1 →
      items.lookup "ico".data = none →
      (AresApiClient.get_subject_formal_description
          (Ares.fetch200 (Ares.Json.obj items)) v).1
        = Except.error (Ares.PyError.keyError "ico".data)) ∧
    (∀ j1 j2, items.lookup "obchodniJmeno".data = some j1 →
      items.lookup "ico".data = some j2 →
      items.lookup "sidlo".data = none →
      (AresApiClient.get_subject_formal_description
          (Ares.fetch200 (Ares.Json.obj items)) v).1
        = Except.error (Ares.PyError.keyError "sidlo".data)) ∧
    (∀ j1 j2 sitems, items.lookup "obchodniJmeno".data = some j1 →
      items.lookup "ico".data = some j2 →
      items.lookup "sidlo".data = some (Ares.Json.obj sitems) →
      sitems.lookup "textovaAdresa".data = none →
      (AresApiClient.get_subject_formal_description
          (Ares.fetch200 (Ares.Json.obj items)) v).1
        = Except.error (Ares.PyError.keyError "textovaAdresa".data)) ∧
    (∀ data : Ares.Json, Ares.pyTruthyJson data = false →
      (AresApiClient.get_subject_formal_description
          (Ares.fetch200 data) v).1 = Except.ok none) ∧
    (∀ data : Ares.Json, Ares.pyTruthyJson data = true →
      (AresApiClient.get_subject_formal_description
          (Ares.fetch200 data) v).1 ≠ Except.ok none) := by
  have hd : ∀ data : Ares.Json,
      (AresApiClient.get_subject_formal_description
          (Ares.fetch200 data) v).1
        = (if Ares.pyTruthyJson data then
            match AresApiClient.formal_description_fstring data with
            | Except.error e => Except.error e
            | Except.ok d => Except.ok (some d)
          else Except.ok none) :=
    fun data => Ares.description_found_eq (Ares.fetch200 data) v s hval
      data rfl
  have htr : items ≠ [] → Ares.pyTruthyJson (Ares.Json.obj items) = true := by
    intro hne
    simp [Ares.pyTruthyJson, List.isEmpty_iff, hne]
  refine ⟨?_, ?_, ?_, ?_, ?_, ?_⟩
  · intro hne hm
    rw [hd]
    simp [htr hne, AresApiClient.formal_description_fstring, Ares.pyGetItem,
      hm]
  · intro j1 h1 h2
    have hne : items ≠ [] := by rintro rfl; simp at h1
    rw [hd]
    simp [htr hne, AresApiClient.formal_description_fstring, Ares.pyGetItem,
      h1, h2]
  · intro j1 j2 h1 h2 h3
    have hne : items ≠ [] := by rintro rfl; simp at h1
    rw [hd]
    simp [htr hne, AresApiClient.formal_description_fstring, Ares.pyGetItem,
      h1, h2, h3]
  · intro j1 j2 sitems h1 h2 h3 h4
    have hne : items ≠ [] := by rintro rfl; simp at h1
    rw [hd]
    simp [htr hne, AresApiClient.formal_description_fstring, Ares.pyGetItem,
      h1, h2, h3, h4]
  · intro data hfalse
    rw [hd]
    simp [hfalse]
  · intro data htrue
    rw [hd]
    simp only [htrue, if_true]
    cases hb : AresApiClient.formal_description_fstring data with
    | error e => simp [hb]
    | ok d => simp [hb]

/-- Witness for C6 (amended): record `\x7b"ico": "00012345"\x7d`, input
`"00012345"`, exercising the missing-`obchodniJmeno` conjunct. -/
theorem ares_c6_missing_field_keyerror_witness :
    (AresApiClient.get_subject_formal_description
        (Ares.fetch200 (Ares.Json.obj
          [("ico".data, Ares.Json.str "00012345".data)]))
        (Ares.PyVal.str "00012345".data)).1
      = Except.error (Ares.PyError.keyError "obchodniJmeno".data) :=
  (ares_c6_missing_field_keyerror
      [("ico".data, Ares.Json.str "00012345".data)]
      (Ares.PyVal.str "00012345".data) "00012345".data (by decide)).1
    (by simp) rfl

/-- C7: when every response of the transport carries a status other than
200, `get_subject_by_ico` returns `None` and
`get_subject_formal_description` returns `None` as well — never an
exception. -/
theorem ares_c7_non_success_status_none (fetch : List Char → Ares.Response)
    (hstatus : ∀ url, (fetch url).status_code ≠ 200) (ico : Ares.PyVal) :
    (AresApiClient.get_subject_by_ico fetch ico).1 = Except.ok none ∧
      (AresApiClient.get_subject_formal_description fetch ico).1
        = Except.ok none := by
  have h1 : (AresApiClient.get_subject_by_ico fetch ico).1
      = Except.ok none := by
    unfold AresApiClient.get_subject_by_ico
    cases hv : AresApiClient.validate_ico ico with
    | none => rfl
    | some s =>
      by_cases hs : s.isEmpty
      · simp [hs]
      · simp [hs, hstatus]
  refine ⟨h1, ?_⟩
  have hp : AresApiClient.get_subject_by_ico fetch ico
      = (Except.ok none, (AresApiClient.get_subject_by_ico fetch ico).2) := by
    rw [← h1]
  unfold AresApiClient.get_subject_formal_description
  rw [hp]

/-- Witness for C7 at the all-404 transport and the input `"123"`. -/
theorem ares_c7_non_success_status_none_witness :
    (AresApiClient.get_subject_by_ico Ares.fetch404
        (Ares.PyVal.str "123".data)).1 = Except.ok none ∧
      (AresApiClient.get_subject_formal_description Ares.fetch404
        (Ares.PyVal.str "123".data)).1 = Except.ok none :=
  ares_c7_non_success_status_none Ares.fetch404
    (fun _ => show (404 : Int) ≠ 200 by decide) (Ares.PyVal.str "123".data)

/-- C8: whenever validation fails, `get_subject_by_ico` returns `None`
with an empty request trace — no network request is issued, whatever the
transport would have answered. -/
theorem ares_c8_invalid_input_no_request (fetch : List Char → Ares.Response)
    (ico : Ares.PyVal) (h : AresApiClient.validate_ico ico = none) :
    AresApiClient.get_subject_by_ico fetch ico = (Except.ok none, []) := by
  unfold AresApiClient.get_subject_by_ico
  rw [h]

/-- Witness for C8 at the 9-digit input `"123456789"`. -/
theorem ares_c8_invalid_input_no_request_witness :
    AresApiClient.get_subject_by_ico Ares.fetch404
        (Ares.PyVal.str "123456789".data) = (Except.ok none, []) :=
  ares_c8_invalid_input_no_request Ares.fetch404
    (Ares.PyVal.str "123456789".data) (by decide)

/-- C9 (counterexample): the input `"0"` — whose whitespace-stripped,
lowercased form is the numeral-0 sentinel's textual form — does not
terminate the loop: the int `0` in `quit_by` never equals a string, so the
iteration proceeds to a lookup, and that lookup issues a network request
for the canonicalized identifier `"00000000"`. -/
theorem ares_c9_counterexample_zero_input :
    AresApiClientManager.interactStep "0".data
        = AresApiClientManager.InteractAction.lookup "0".data ∧
      (AresApiClient.get_subject_formal_description Ares.fetch404
          (Ares.PyVal.str "0".data)).2
        = [AresApiClient.ARES_REQUEST_URL ++ "00000000".data] :=
  ⟨rfl, rfl⟩

/-- C9 (amended): every input whose whitespace-stripped, lowercased form is
one of the eight string sentinels `""`, `"q"`, `"quit"`, `"quit()"`,
`"exit"`, `"exit()"`, `"abort"`, `"abort()"` makes the loop break
immediately, before any lookup or network call; the int `0` member of
`quit_by` matches no string input. -/
theorem ares_c9_string_sentinels_quit (raw : List Char)
    (h : Ares.pyLower (raw.filter (fun c => !Ares.pyWhitespaceChar c))
        ∈ (["".data, "q".data, "quit".data, "quit()".data, "exit".data,
            "exit()".data, "abort".data, "abort()".data] :
          List (List Char))) :
    AresApiClientManager.interactStep raw
      = AresApiClientManager.InteractAction.quit := by
  have key : ∀ x ∈ (["".data, "q".data, "quit".data, "quit()".data,
      "exit".data, "exit()".data, "abort".data, "abort()".data] :
        List (List Char)),
      AresApiClientManager.quit_by.any
        (fun q => Ares.pyEq (Ares.PyVal.str x) q) = true := by decide
  have hq := key _ h
  unfold AresApiClientManager.interactStep
  simp [hq]

/-- Witness for C9 (amended) at the input `" E X I T "`. -/
theorem ares_c9_string_sentinels_quit_witness :
    AresApiClientManager.interactStep " E X I T ".data
      = AresApiClientManager.InteractAction.quit :=
  ares_c9_string_sentinels_quit " E X I T ".data (by decide)
